import Mathlib

/-!
Shallow embedding of the `mytool` command-line tool
(`src/mytool/core.py`, `src/mytool/cli.py`).

Python exceptions are modelled by the `Except PyError` monad, where
`PyError` distinguishes the two exception classes the code raises
(`ValueError`, `RuntimeError`).  A subcommand handler is modelled as a
function returning a `CmdResult`: the list of lines printed to stdout,
the list of items printed to stderr, and the process exit code.
`traceback.print_exc()` is modelled by the abstract stderr item
`ErrLine.stackTrace`, since the concrete interpreter stack is not
representable.
-/

namespace Mytool

/-- The single-quote character, used inside the Japanese error messages of
`core.py` (written via its code point). -/
def sq : String := String.singleton (Char.ofNat 39)

/-- The two Python exception classes raised by `core.py`, each carrying its
message string. -/
inductive PyError where
  | valueError (msg : String)
  | runtimeError (msg : String)
deriving DecidableEq, Repr

/-- `str(e)` of an exception: its message. -/
def PyError.message : PyError → String
  | .valueError m => m
  | .runtimeError m => m

/-- Model of Python `str.upper()` (faithful on ASCII input). -/
def pyUpper (s : String) : String := s.map Char.toUpper

/-- `core.py` `hello_logic`: build `"Hello, {name}!"`, upper-cased when
`upper` is set. -/
def hello_logic (name : String) (upper : Bool) : String :=
  let message := "Hello, " ++ name ++ "!"
  if upper then pyUpper message else message

/-- `core.py` `sum_logic`: raise `ValueError` on the empty list, else return
Python `sum(numbers)` (a left fold of `+` starting from `0`). -/
def sum_logic (numbers : List Int) : Except PyError Int :=
  if numbers = [] then
    Except.error (PyError.valueError "少なくとも1つの数値が必要です")
  else
    Except.ok (numbers.foldl (· + ·) 0)

/-- `core.py` `check_logic`: `"ok"` returns `true`; `"fail"` raises
`RuntimeError`; anything else raises `ValueError` naming the mode. -/
def check_logic (mode : String) : Except PyError Bool :=
  if mode = "ok" then
    Except.ok true
  else if mode = "fail" then
    Except.error (PyError.runtimeError
      ("意図的な失敗: チェックモードが" ++ sq ++ "fail" ++ sq ++ "に設定されています"))
  else
    Except.error (PyError.valueError
      ("不正なモード: " ++ mode ++ "。" ++ sq ++ "ok" ++ sq ++ "または"
        ++ sq ++ "fail" ++ sq ++ "を指定してください"))

/-- One item printed to stderr: a text line, or the stack trace emitted by
`traceback.print_exc()` (abstract, since the interpreter stack is not
representable). -/
inductive ErrLine where
  | text (s : String)
  | stackTrace
deriving DecidableEq, Repr

/-- Observable outcome of one subcommand handler: stdout lines, stderr
items, process exit code. -/
structure CmdResult where
  stdout : List String
  stderr : List ErrLine
  exitCode : Nat
deriving DecidableEq, Repr

/-- `cli.py` `_handle_error`: print `エラー: <message>` to stderr, add the
separator line and the stack trace when the verbose flag is set, then exit
with the given code (the Python default is 1; callers here always pass it
explicitly). -/
def handle_error (msg : String) (verbose : Bool) (exitCode : Nat) : CmdResult :=
  { stdout := []
    stderr := [ErrLine.text ("エラー: " ++ msg)] ++
      (if verbose then [ErrLine.text "\n--- スタックトレース ---", ErrLine.stackTrace] else [])
    exitCode := exitCode }

/-- Hexadecimal digit character, for `json.dumps` control-character
escapes. -/
def hexDigit (n : Nat) : Char :=
  if n < 10 then Char.ofNat (48 + n) else Char.ofNat (87 + n)

/-- `json.dumps` escaping of one character (`ensure_ascii=False`): quote,
backslash and control characters are escaped, everything else passes
through. -/
def jsonEscapeChar (c : Char) : String :=
  if c = Char.ofNat 34 then "\\" ++ String.singleton (Char.ofNat 34)
  else if c = Char.ofNat 92 then "\\\\"
  else if c = Char.ofNat 10 then "\\n"
  else if c = Char.ofNat 13 then "\\r"
  else if c = Char.ofNat 9 then "\\t"
  else if c.toNat = 8 then "\\b"
  else if c.toNat = 12 then "\\f"
  else if c.toNat < 32 then
    "\\u00" ++ String.singleton (hexDigit (c.toNat / 16))
      ++ String.singleton (hexDigit (c.toNat % 16))
  else String.singleton c

/-- A JSON string literal as produced by `json.dumps` with
`ensure_ascii=False`. -/
def jsonString (s : String) : String :=
  String.singleton (Char.ofNat 34)
    ++ String.join (s.toList.map jsonEscapeChar)
    ++ String.singleton (Char.ofNat 34)

/-- `json.dumps(\x7b"message": message\x7d, ensure_ascii=False)`. -/
def helloJson (message : String) : String :=
  "\x7b" ++ jsonString "message" ++ ": " ++ jsonString message ++ "\x7d"

/-- `json.dumps(\x7b"sum": result, "count": count\x7d, ensure_ascii=False)`. -/
def sumJson (result : Int) (count : Nat) : String :=
  "\x7b" ++ jsonString "sum" ++ ": " ++ toString result ++ ", "
    ++ jsonString "count" ++ ": " ++ toString count ++ "\x7d"

/-- The `try` body of the `hello` handler viewed in the exception monad:
`hello_logic` is pure string formatting and raises nothing, so the body
always succeeds. -/
def hello_logic_exc (name : String) (upper : Bool) : Except PyError String :=
  Except.ok (hello_logic name upper)

/-- `cli.py` `hello` handler: print the message (plain or JSON) and exit 0;
an exception would fall to `_handle_error` with the default exit code 1. -/
def hello (name : String) (upper jsonOutput verbose : Bool) : CmdResult :=
  match hello_logic_exc name upper with
  | Except.ok message =>
      { stdout := [if jsonOutput then helloJson message else message]
        stderr := []
        exitCode := 0 }
  | Except.error e => handle_error e.message verbose 1

/-- `cli.py` `sum_cmd` handler: on success print the sum (plain or JSON)
and exit 0; a `ValueError` goes to `_handle_error` with exit code 2, any
other exception with the default exit code 1. -/
def sum_cmd (numbers : List Int) (jsonOutput verbose : Bool) : CmdResult :=
  match sum_logic numbers with
  | Except.ok result =>
      { stdout := [if jsonOutput then sumJson result numbers.length
                   else "合計: " ++ toString result]
        stderr := []
        exitCode := 0 }
  | Except.error (PyError.valueError m) => handle_error m verbose 2
  | Except.error (PyError.runtimeError m) => handle_error m verbose 1

/-- `cli.py` `check` handler: on success print the success marker and exit
0; a `RuntimeError` goes to `_handle_error` with exit code 1, a
`ValueError` with exit code 2, any other exception with the default 1. -/
def check (mode : String) (verbose : Bool) : CmdResult :=
  match check_logic mode with
  | Except.ok _ =>
      { stdout := ["✓ チェック成功"]
        stderr := []
        exitCode := 0 }
  | Except.error (PyError.runtimeError m) => handle_error m verbose 1
  | Except.error (PyError.valueError m) => handle_error m verbose 2

/-- One parsed invocation: the selected operation with its arguments (the
shared verbose flag is passed separately, as the typer context does). -/
inductive Invocation where
  | helloInv (name : String) (upper jsonOutput : Bool)
  | sumInv (numbers : List Int) (jsonOutput : Bool)
  | checkInv (mode : String)
deriving DecidableEq, Repr

/-- The dispatcher: route a parsed invocation to its handler, threading the
shared verbose flag. -/
def run (verbose : Bool) : Invocation → CmdResult
  | Invocation.helloInv n u j => hello n u j verbose
  | Invocation.sumInv ns j => sum_cmd ns j verbose
  | Invocation.checkInv m => check m verbose

/-- Helper: on a non-empty list `sum_logic` returns the list sum. -/
theorem sum_logic_eq_sum (s : List Int) (h : s ≠ []) :
    sum_logic s = Except.ok s.sum := by
  unfold sum_logic
  rw [if_neg h, List.sum_eq_foldl]

/-- C1: for every non-empty list of integers `s`, `sum_logic s` returns the
arithmetic sum of the elements of `s` and does not raise any error. -/
theorem sum_logic_correct (s : List Int) (h : s ≠ []) :
    sum_logic s = Except.ok s.sum :=
  sum_logic_eq_sum s h

/-- Witness for C1 at the concrete list `[1, 2, 3]`. -/
theorem sum_logic_correct_witness :
    sum_logic [1, 2, 3] = Except.ok (([1, 2, 3] : List Int).sum) :=
  sum_logic_correct [1, 2, 3] (by decide)

/-- C5: for every name string `n`, `hello_logic n false` is exactly
`"Hello, n!"` and `hello_logic n true` is the upper-cased form of
`"Hello, n!"`. -/
theorem hello_logic_correct (n : String) :
    hello_logic n false = "Hello, " ++ n ++ "!" ∧
    hello_logic n true = pyUpper ("Hello, " ++ n ++ "!") := by
  constructor <;> rfl

/-- C9 (implicit): `check_logic` never returns `false`: any successful
return is `true` and happens exactly for mode `"ok"`. -/
theorem check_logic_never_false (mode : String) :
    check_logic "ok" = Except.ok true ∧
    (∀ b, check_logic mode = Except.ok b → b = true ∧ mode = "ok") := by
  refine ⟨rfl, fun b hb => ?_⟩
  unfold check_logic at hb
  by_cases hok : mode = "ok"
  · rw [if_pos hok] at hb
    exact ⟨(Except.ok.injEq _ _).mp hb |>.symm, hok⟩
  · rw [if_neg hok] at hb
    by_cases hfail : mode = "fail"
    · rw [if_pos hfail] at hb
      exact absurd hb (by simp)
    · rw [if_neg hfail] at hb
      exact absurd hb (by simp)

/-- Witness for C9 at the concrete mode `"ok"` and value `true`. -/
theorem check_logic_never_false_witness :
    true = true ∧ "ok" = "ok" :=
  (check_logic_never_false "ok").2 true (check_logic_never_false "ok").1

/-- C3: `check_logic` returns `true` for mode `"ok"`, raises the
intentional-failure error (`RuntimeError`) for `"fail"`, and for any other
string raises a user-input error (`ValueError`) whose message contains the
offending string. -/
theorem check_logic_cases (mode : String) :
    (mode = "ok" → check_logic mode = Except.ok true) ∧
    (mode = "fail" → check_logic mode = Except.error (PyError.runtimeError
      ("意図的な失敗: チェックモードが" ++ sq ++ "fail" ++ sq ++ "に設定されています"))) ∧
    (mode ≠ "ok" → mode ≠ "fail" →
      ∃ pre post, check_logic mode =
        Except.error (PyError.valueError (pre ++ mode ++ post))) := by
  refine ⟨fun h => ?_, fun h => ?_, fun h1 h2 => ?_⟩
  · subst h; rfl
  · subst h; rfl
  · refine ⟨"不正なモード: ",
      "。" ++ sq ++ "ok" ++ sq ++ "または" ++ sq ++ "fail" ++ sq ++ "を指定してください", ?_⟩
    unfold check_logic
    rw [if_neg h1, if_neg h2]
    simp [String.append_assoc]

/-- Witness for C3, applying the theorem at the three concrete modes
`"ok"`, `"fail"` and `"bogus"`. -/
theorem check_logic_cases_witness :
    check_logic "ok" = Except.ok true ∧
    check_logic "fail" = Except.error (PyError.runtimeError
      ("意図的な失敗: チェックモードが" ++ sq ++ "fail" ++ sq ++ "に設定されています")) ∧
    ∃ pre post, check_logic "bogus" =
      Except.error (PyError.valueError (pre ++ "bogus" ++ post)) :=
  ⟨(check_logic_cases "ok").1 rfl,
   (check_logic_cases "fail").2.1 rfl,
   (check_logic_cases "bogus").2.2 (by decide) (by decide)⟩

/-- C10 (implicit): `sum_logic` is a homomorphism over list concatenation
and is invariant under permutation of the list. -/
theorem sum_logic_concat_perm (s t p : List Int)
    (hs : s ≠ []) (ht : t ≠ []) (hp : s.Perm p) :
    (∃ a b, sum_logic s = Except.ok a ∧ sum_logic t = Except.ok b ∧
      sum_logic (s ++ t) = Except.ok (a + b)) ∧
    sum_logic p = sum_logic s := by
  have hst : s ++ t ≠ [] := fun h => hs (List.append_eq_nil.mp h).1
  have hpne : p ≠ [] := fun h => hs (List.Perm.eq_nil (h ▸ hp))
  refine ⟨⟨s.sum, t.sum, sum_logic_eq_sum s hs, sum_logic_eq_sum t ht, ?_⟩, ?_⟩
  · rw [sum_logic_eq_sum _ hst, List.sum_append]
  · rw [sum_logic_eq_sum p hpne, sum_logic_eq_sum s hs, hp.sum_eq]

/-- Witness for C10 at the concrete lists `[1, 2]`, `[3]` and the
permutation `[2, 1]`. -/
theorem sum_logic_concat_perm_witness :
    (∃ a b, sum_logic [1, 2] = Except.ok a ∧ sum_logic [3] = Except.ok b ∧
      sum_logic ([1, 2] ++ [3]) = Except.ok (a + b)) ∧
    sum_logic [2, 1] = sum_logic [1, 2] :=
  sum_logic_concat_perm [1, 2] [3] [2, 1] (by decide) (by decide) (by decide)

/-- C2: the `sum` handler invoked with an empty number list exits with
code 2 and its first stderr line contains `少なくとも1つ`. -/
theorem sum_cmd_empty (j v : Bool) :
    (sum_cmd [] j v).exitCode = 2 ∧
    ∃ pre post,
      (sum_cmd [] j v).stderr.head? =
        some (ErrLine.text (pre ++ "少なくとも1つ" ++ post)) := by
  refine ⟨rfl, "エラー: ", "の数値が必要です", ?_⟩
  cases v <;> rfl

/-- C6: the `hello` handler has no failure path: for every name and every
combination of the upper/json/verbose flags it exits 0, prints nothing to
stderr, and takes the success branch. -/
theorem hello_no_failure (name : String) (upper jsonOutput verbose : Bool) :
    (hello name upper jsonOutput verbose).exitCode = 0 ∧
    (hello name upper jsonOutput verbose).stderr = [] ∧
    ∃ out, hello name upper jsonOutput verbose =
      { stdout := [out], stderr := [], exitCode := 0 } :=
  ⟨rfl, rfl, ⟨_, rfl⟩⟩

/-- C4: the `check` handler prints the success marker and exits 0 on mode
`"ok"`; exits 1 on `"fail"` with an error message beginning
`意図的な失敗`; and exits 2 on any other mode with an error message naming
the invalid mode. -/
theorem check_cmd_modes (v : Bool) :
    ((check "ok" v).stdout = ["✓ チェック成功"] ∧ (check "ok" v).exitCode = 0) ∧
    ((check "fail" v).exitCode = 1 ∧
      ∃ rest, (check "fail" v).stderr.head? =
        some (ErrLine.text ("エラー: " ++ ("意図的な失敗" ++ rest)))) ∧
    (∀ mode, mode ≠ "ok" → mode ≠ "fail" →
      (check mode v).exitCode = 2 ∧
      ∃ pre post, (check mode v).stderr.head? =
        some (ErrLine.text (pre ++ mode ++ post))) := by
  refine ⟨⟨rfl, rfl⟩, ⟨rfl, ": チェックモードが" ++ sq ++ "fail" ++ sq ++ "に設定されています", ?_⟩,
    fun mode h1 h2 => ?_⟩
  · cases v <;> rfl
  · have hc : check_logic mode = Except.error (PyError.valueError
        ("不正なモード: " ++ mode ++ "。" ++ sq ++ "ok" ++ sq ++ "または"
          ++ sq ++ "fail" ++ sq ++ "を指定してください")) := by
      unfold check_logic
      rw [if_neg h1, if_neg h2]
    refine ⟨?_, "エラー: " ++ "不正なモード: ",
      "。" ++ sq ++ "ok" ++ sq ++ "または" ++ sq ++ "fail" ++ sq ++ "を指定してください", ?_⟩
    · unfold check
      rw [hc]
      rfl
    · unfold check
      rw [hc]
      cases v <;> simp [handle_error, String.append_assoc] <;>
        rw [← String.append_assoc] <;> congr 1

/-- Witness for C4, applying the theorem at verbose off and the concrete
invalid mode `"bogus"`. -/
theorem check_cmd_modes_witness :
    (check "bogus" false).exitCode = 2 ∧
    ∃ pre post, (check "bogus" false).stderr.head? =
      some (ErrLine.text (pre ++ "bogus" ++ post)) :=
  (check_cmd_modes false).2.2 "bogus" (by decide) (by decide)

/-- C7: on every failure the dispatcher prints `エラー: <message>` to
stderr, adds a stack trace exactly when the verbose flag is set, and exits
with the operation-specific code: 2 for user-input (`ValueError`) paths of
`check` and `sum`, 1 for the intentional-failure (`RuntimeError`) path of
`check`. -/
theorem handle_error_contract (msg : String) (verbose : Bool) (code : Nat) :
    (handle_error msg verbose code).stderr.head? =
      some (ErrLine.text ("エラー: " ++ msg)) ∧
    (ErrLine.stackTrace ∈ (handle_error msg verbose code).stderr ↔ verbose = true) ∧
    (handle_error msg verbose code).exitCode = code ∧
    (∀ m em, check_logic m = Except.error (PyError.runtimeError em) →
      check m verbose = handle_error em verbose 1) ∧
    (∀ m em, check_logic m = Except.error (PyError.valueError em) →
      check m verbose = handle_error em verbose 2) ∧
    (∀ ns j em, sum_logic ns = Except.error (PyError.valueError em) →
      sum_cmd ns j verbose = handle_error em verbose 2) := by
  refine ⟨?_, ?_, rfl, fun m em h => ?_, fun m em h => ?_, fun ns j em h => ?_⟩
  · cases verbose <;> rfl
  · cases verbose <;> simp [handle_error]
  · unfold check; rw [h]
  · unfold check; rw [h]
  · unfold sum_cmd; rw [h]

/-- Witness for C7, applying the theorem's error-path clauses at the
concrete failures `check --mode fail`, `check --mode bad` and `sum` with
no numbers. -/
theorem handle_error_contract_witness :
    check "fail" false = handle_error
      ("意図的な失敗: チェックモードが" ++ sq ++ "fail" ++ sq ++ "に設定されています") false 1 ∧
    check "bad" false = handle_error
      ("不正なモード: " ++ "bad" ++ "。" ++ sq ++ "ok" ++ sq ++ "または"
        ++ sq ++ "fail" ++ sq ++ "を指定してください") false 2 ∧
    sum_cmd [] false false = handle_error "少なくとも1つの数値が必要です" false 2 :=
  ⟨(handle_error_contract "x" false 1).2.2.2.1 "fail" _ rfl,
   (handle_error_contract "x" false 2).2.2.2.2.1 "bad" _ rfl,
   (handle_error_contract "x" false 2).2.2.2.2.2 [] false _ rfl⟩

/-- C8: the dispatcher is deterministic: two runs with identical verbose
flags and identical invocations produce identical stdout, stderr and exit
codes. -/
theorem run_deterministic (v₁ v₂ : Bool) (i₁ i₂ : Invocation)
    (hv : v₁ = v₂) (hi : i₁ = i₂) :
    (run v₁ i₁).stdout = (run v₂ i₂).stdout ∧
    (run v₁ i₁).stderr = (run v₂ i₂).stderr ∧
    (run v₁ i₁).exitCode = (run v₂ i₂).exitCode := by
  subst hv; subst hi; exact ⟨rfl, rfl, rfl⟩

/-- Witness for C8 at a concrete repeated invocation of `sum 1 2`. -/
theorem run_deterministic_witness :
    (run false (Invocation.sumInv [1, 2] false)).stdout =
      (run false (Invocation.sumInv [1, 2] false)).stdout ∧
    (run false (Invocation.sumInv [1, 2] false)).stderr =
      (run false (Invocation.sumInv [1, 2] false)).stderr ∧
    (run false (Invocation.sumInv [1, 2] false)).exitCode =
      (run false (Invocation.sumInv [1, 2] false)).exitCode :=
  run_deterministic false false (Invocation.sumInv [1, 2] false)
    (Invocation.sumInv [1, 2] false) rfl rfl

end Mytool
